import Mathlib

/-!
Verification of `src/Payment/payment_checker.py`, a single-message payment
debit worker: it parses one queued billing message, calls an external
direct-debit HTTP endpoint, records a debit-history row and updates a
billing record via SQL.

Shallow embedding conventions:
* JSON values are the inductive `JVal` (objects via the mutual `JObj`,
  an association list with unique keys, as a Python dict).
* Numbers are exact decimals `Dec10` (value `mant / 10 ^ fdigits`).
  Python `float(x)` / `int(x)` string conversions are modelled with exact
  decimal semantics over the plain decimal grammar (optional sign, digits,
  optional fractional part); scientific notation, inf/nan, surrounding
  whitespace and digit underscores are outside the modelled input grammar,
  and binary64 rounding is abstracted as exact (all inputs appearing in
  the claims round-trip exactly).
* External interactions (the HTTP response, and success/failure of each
  SQL execution) are inputs: the HTTP response is a `HttpResponse` value,
  and the outcome of the i-th SQL execution attempt is `dbOk i` for an
  arbitrary oracle `dbOk : Nat → Bool`.
* Side effects are accumulated in an ordered `Trace` of `Effect`s.
* Python exceptions are the inductive `PyExc`; each distinct `raise` site
  of the source has its own constructor.  `lambda_handler` returns
  `Except PyExc LambdaResult`: `.error` means an exception escaped.
-/

/-! ## Exact decimal numbers -/

/-- Exact decimal number with value `mant / 10 ^ fdigits`: the common
exact representation of JSON number literals and of the plain decimal
strings accepted by Python `float`. -/
structure Dec10 where
  mant : Int
  fdigits : Nat
deriving DecidableEq

/-- Numeric value of a decimal. -/
def Dec10.toRat (d : Dec10) : ℚ := (d.mant : ℚ) / (10 : ℚ) ^ d.fdigits

/-- Truncation toward zero of a decimal, the semantics of Python
`int(float)`: drop the fractional digits, keeping the sign. -/
def Dec10.trunc (d : Dec10) : Int :=
  if d.mant < 0 then -((d.mant.natAbs / 10 ^ d.fdigits : Nat) : Int)
  else ((d.mant.natAbs / 10 ^ d.fdigits : Nat) : Int)

/-- Python `d == n` for an int `n`: exact numeric comparison. -/
def Dec10.eqInt (d : Dec10) (n : Int) : Bool :=
  d.mant = n * ((10 ^ d.fdigits : Nat) : Int)

/-- Truncation toward zero of a rational, stated with the order-theoretic
floor and ceiling (the reference meaning of truncated toward zero). -/
def truncQ (q : ℚ) : Int := if 0 ≤ q then ⌊q⌋ else ⌈q⌉

/-! ## JSON values (results of `json.loads` / `response.json()`) -/

mutual

/-- JSON value as produced by Python `json.loads`.  Arrays are not needed
by any code path the claims exercise and are omitted; numbers are exact
decimals (see the header note on float semantics). -/
inductive JVal where
  | jnull
  | jbool (b : Bool)
  | jnum (d : Dec10)
  | jstr (s : String)
  | jobj (o : JObj)
deriving DecidableEq

/-- JSON object: association list of fields.  Keys are unique (Python dict
semantics; `json.loads` keeps one binding per key). -/
inductive JObj where
  | nil
  | cons (k : String) (v : JVal) (rest : JObj)
deriving DecidableEq

end

/-- Dict lookup: `k in d` / `d[k]` membership base. -/
def JObj.lookup : JObj → String → Option JVal
  | .nil, _ => none
  | .cons k v rest, f => if k = f then some v else rest.lookup f

/-- Python `d.get(k)`: missing key yields `None` (here `jnull`; JSON null
and Python None coincide in this model, exactly as in the source, where
`data.get` of a missing key and a JSON null are both `None`). -/
def JObj.pyGet (o : JObj) (k : String) : JVal := (o.lookup k).getD .jnull

/-! ## Python exceptions -/

/-- Python exceptions raised by the code paths of `payment_checker.py`.
Each constructor corresponds to one raising site or library exception:
`invalidJson` is the `ValueError` re-raised on `json.JSONDecodeError`;
`missingField` / `nullField` / `invalidAmount` are the three `ValueError`
raises of `parse_message`; `valueError` covers remaining `ValueError`s
(the float/int literal conversion errors and the
`ValueError` raised on a disabled status); `typeError`, `keyError`,
`attributeError` are the library exceptions of subscripting / attribute
access on unsuitable values; `httpError` is `response.raise_for_status()`;
`assertionError` is the failed `assert`. -/
inductive PyExc where
  | invalidJson
  | missingField (f : String)
  | nullField (f : String)
  | invalidAmount
  | valueError (msg : String)
  | typeError
  | keyError (k : String)
  | attributeError
  | httpError (status : Nat)
  | assertionError
deriving DecidableEq

/-- Python subscript `v[k]`: `KeyError` on a dict without the key,
`TypeError` on a non-dict. -/
def pySubscript (v : JVal) (k : String) : Except PyExc JVal :=
  match v with
  | .jobj o =>
    match o.lookup k with
    | some x => .ok x
    | none => .error (.keyError k)
  | _ => .error (.typeError)

/-- Python `v == n` for an int constant `n` (used for
`response_json` status equal to `SUCCESS_FLAG`): numbers compare by
value, booleans compare as 0/1, everything else is unequal.  Never
raises. -/
def pyEqInt (v : JVal) (n : Int) : Bool :=
  match v with
  | .jnum d => d.eqInt n
  | .jbool b => (if b then (1 : Int) else 0) = n
  | _ => false

/-! ## Python numeric string conversions -/

/-- Value of a digit run (most significant first). -/
def digitsToNat (ds : List Char) : Nat :=
  ds.foldl (fun a c => a * 10 + (c.toNat - 48)) 0

/-- Unsigned part of the Python `float` literal grammar restricted to
plain decimals: `digits`, `digits.digits`, `digits.` or `.digits`.
Returns mantissa and count of fractional digits. -/
def parseUnsignedDecimal? (cs : List Char) : Option (Nat × Nat) :=
  if cs.contains '.' then
    let ip := cs.takeWhile (fun c => c ≠ '.')
    let fp := (cs.dropWhile (fun c => c ≠ '.')).tail
    if fp.contains '.' then none
    else if ip.isEmpty && fp.isEmpty then none
    else if ip.all Char.isDigit && fp.all Char.isDigit then
      some (digitsToNat ip * 10 ^ fp.length + digitsToNat fp, fp.length)
    else none
  else
    if cs.isEmpty then none
    else if cs.all Char.isDigit then some (digitsToNat cs, 0)
    else none

/-- Python `float(s)` for a string, restricted to plain signed decimals
(see header).  `none` models the `ValueError` of a non-numeric string. -/
def parseDecimal? (s : String) : Option Dec10 :=
  match s.toList with
  | '+' :: rest => (parseUnsignedDecimal? rest).map fun p => ⟨(p.1 : Int), p.2⟩
  | '-' :: rest => (parseUnsignedDecimal? rest).map fun p => ⟨-(p.1 : Int), p.2⟩
  | cs => (parseUnsignedDecimal? cs).map fun p => ⟨(p.1 : Int), p.2⟩

/-- Python `int(s)` for a string: optional sign then digits only.
`none` models the `ValueError` of a non-integer literal. -/
def parseIntStr? (s : String) : Option Int :=
  match s.toList with
  | '-' :: rest =>
    if rest.isEmpty || !rest.all Char.isDigit then none
    else some (-(digitsToNat rest : Int))
  | '+' :: rest =>
    if rest.isEmpty || !rest.all Char.isDigit then none
    else some ((digitsToNat rest : Int))
  | cs =>
    if cs.isEmpty || !cs.all Char.isDigit then none
    else some ((digitsToNat cs : Int))

/-- Python `float(v)` on a JSON value: numbers pass through, booleans are
0/1, strings are parsed (`ValueError` on failure), `None` is a
`TypeError`, as is any other non-numeric non-string value. -/
def pyFloat (v : JVal) : Except PyExc Dec10 :=
  match v with
  | .jnum d => .ok d
  | .jbool b => .ok (if b then ⟨1, 0⟩ else ⟨0, 0⟩)
  | .jstr s =>
    match parseDecimal? s with
    | some d => .ok d
    | none => .error (.valueError ("could not convert string to float: " ++ s))
  | _ => .error (.typeError)

/-- Python `int(v)` on a JSON value: floats truncate toward zero, booleans
are 0/1, strings parse as integer literals (`ValueError` on failure),
anything else is a `TypeError`. -/
def pyInt (v : JVal) : Except PyExc Int :=
  match v with
  | .jnum d => .ok d.trunc
  | .jbool b => .ok (if b then 1 else 0)
  | .jstr s =>
    match parseIntStr? s with
    | some n => .ok n
    | none => .error (.valueError ("invalid literal for int with base 10: " ++ s))
  | _ => .error (.typeError)

/-! ## Message Parser (`parse_message`, source lines 87-119) -/

/-- The five required fields, in the order the source loop checks them. -/
def required_fields : List String :=
  ["billing_id", "merchant_code", "user_code", "direct_debit_id", "amount"]

/-- The validation loop of `parse_message`: for each field in order,
raise `Missing required field` when absent, `Field cannot be null` when
present but null. -/
def checkRequired (m : JObj) : List String → Except PyExc Unit
  | [] => .ok ()
  | f :: rest =>
    match m.lookup f with
    | none => .error (.missingField f)
    | some .jnull => .error (.nullField f)
    | some _ => checkRequired m rest

/-- Result tuple of `parse_message`: the parsed structure plus the five
extracted fields; `amount` has been normalized to an integer string. -/
structure ParsedMsg where
  message_data : JObj
  billing_id : JVal
  merchant_code : JVal
  user_code : JVal
  direct_debit_id : JVal
  amount : String
deriving DecidableEq

/-- `parse_message`: the argument is the `json.loads` result of the
record body (`none` models a `JSONDecodeError`, re-raised as the
`Invalid JSON format` ValueError).  A JSON payload that is not an object
makes the membership test of the source loop raise (abstracted here as
`typeError`).  After validation, `amount` is normalized via
`str(int(float(raw_amount)))`; only a `ValueError` from that conversion
is re-raised as `Invalid amount`, other exceptions propagate as-is. -/
def parse_message (body : Option JVal) : Except PyExc ParsedMsg :=
  match body with
  | none => .error .invalidJson
  | some (.jobj m) =>
    match checkRequired m required_fields with
    | .error e => .error e
    | .ok _ =>
      match pyFloat (m.pyGet "amount") with
      | .ok d =>
        .ok { message_data := m
              billing_id := m.pyGet "billing_id"
              merchant_code := m.pyGet "merchant_code"
              user_code := m.pyGet "user_code"
              direct_debit_id := m.pyGet "direct_debit_id"
              amount := toString d.trunc }
      | .error (.valueError _) => .error .invalidAmount
      | .error e => .error e
  | some _ => .error .typeError

/-! ## Debit Client (`get_request_body`, `send_request_debit`) -/

/-- The request body built by `get_request_body` (source lines 121-131). -/
structure DebitRequest where
  customer_id : Int
  amount : Int
  tax : Int
  ship_fee : Int
  transfer_type : Int
  status : Int
deriving DecidableEq

/-- `get_request_body`: `customer_id = int(direct_debit_id)`,
`amount = int(total_amount)`, the other four fields constant.
`int(direct_debit_id)` is evaluated first, as in the Python dict
literal. -/
def get_request_body (direct_debit_id : JVal) (total_amount : String) :
    Except PyExc DebitRequest :=
  match pyInt direct_debit_id with
  | .error e => .error e
  | .ok cid =>
    match pyInt (.jstr total_amount) with
    | .error e => .error e
    | .ok amt =>
      .ok { customer_id := cid, amount := amt, tax := 0, ship_fee := 0
            transfer_type := 1, status := 1 }

/-- HTTP response of the debit endpoint, an external input of the model:
`status_code` in the usual 100-599 range, and the `response.json()`
parse result (`none` models a non-JSON body, whose `.json()` call
raises). -/
structure HttpResponse where
  status_code : Nat
  body : Option JVal
deriving DecidableEq

/-- `response.ok` of the requests library: true iff the status code is
below 400. -/
def HttpResponse.respOk (r : HttpResponse) : Bool := r.status_code < 400

/-- `response.json()`. -/
def HttpResponse.json (r : HttpResponse) : Except PyExc JVal :=
  match r.body with
  | some v => .ok v
  | none => .error (.valueError "response body is not valid JSON")

/-- `response.raise_for_status()`: raises `HTTPError` exactly on a 4xx
or 5xx status, i.e. (within the modelled 100-599 range) exactly when
`respOk` is false. -/
def raise_for_status (r : HttpResponse) : Except PyExc Unit :=
  if r.respOk then .ok () else .error (.httpError r.status_code)

/-! ## Ledger Store (effect level) -/

/-- The row built by the INSERT of `insert_debit_history`
(source lines 149-176): each field is `data.get(key)` (so `jnull` when
the key is missing), plus the merchant and user codes passed through.
Rendering of the values into SQL text is abstracted. -/
structure HistoryRow where
  request_id : JVal
  merchant_code : JVal
  user_code : JVal
  amount : JVal
  tax : JVal
  ship_fee : JVal
  custom_code : JVal
  next_transfer : JVal
  transfer_type : JVal
  transfer_count : JVal
  status : JVal
  item_code : JVal
deriving DecidableEq

/-- Observable external action of one invocation. -/
inductive Effect where
  | httpPost (body : DebitRequest)
  | sqlInsertHistory (row : HistoryRow)
  | sqlMarkSettled (merchant_code user_code : JVal)
  | sqlMarkFailed (merchant_code user_code error : JVal)
  | sleep (seconds : Nat)
deriving DecidableEq

/-- Ordered effect trace; `writes` counts SQL execution attempts so far
(the index fed to the `dbOk` oracle). -/
structure Trace where
  effects : List Effect
  writes : Nat
deriving DecidableEq

def Trace.empty : Trace := ⟨[], 0⟩

def Trace.push (t : Trace) (e : Effect) : Trace := ⟨t.effects ++ [e], t.writes⟩

/-- `execution_query` (source lines 200-211): attempts the statement
(recorded as an effect), catches any storage error internally and
returns a boolean success flag — the oracle's verdict for this attempt.
It never raises: the `except` clause converts every exception into
`return False`. -/
def execution_query (dbOk : Nat → Bool) (t : Trace) (e : Effect) : Bool × Trace :=
  (dbOk t.writes, ⟨t.effects ++ [e], t.writes + 1⟩)

/-- Fields of the history row, in source order. -/
def mkHistoryRow (data : JObj) (merchant_code user_code : JVal) : HistoryRow :=
  { request_id := data.pyGet "request_id"
    merchant_code := merchant_code
    user_code := user_code
    amount := data.pyGet "amount"
    tax := data.pyGet "tax"
    ship_fee := data.pyGet "ship_fee"
    custom_code := data.pyGet "custom_code"
    next_transfer := data.pyGet "next_transfer"
    transfer_type := data.pyGet "transfer_type"
    transfer_count := data.pyGet "transfer_count"
    status := data.pyGet "status"
    item_code := data.pyGet "item_code" }

/-- `insert_debit_history` (source lines 149-176): builds the INSERT and
runs it through `execution_query`, whose boolean result is discarded.
The source's `except ... raise e` branch is unreachable because
`execution_query` catches internally and never raises. -/
def insert_debit_history (dbOk : Nat → Bool) (t : Trace) (data : JObj)
    (merchant_code user_code : JVal) : Trace :=
  (execution_query dbOk t (.sqlInsertHistory (mkHistoryRow data merchant_code user_code))).2

/-- `update_billing_to_settled` (source lines 178-187): runs the settled
UPDATE through `execution_query`; the boolean result is discarded. -/
def update_billing_to_settled (dbOk : Nat → Bool) (t : Trace)
    (merchant_code user_code : JVal) : Trace :=
  (execution_query dbOk t (.sqlMarkSettled merchant_code user_code)).2

/-- `update_billing_error` (source lines 189-198): runs the failure
UPDATE through `execution_query`; the boolean result is discarded. -/
def update_billing_error (dbOk : Nat → Bool) (t : Trace)
    (merchant_code user_code error : JVal) : Trace :=
  (execution_query dbOk t (.sqlMarkFailed merchant_code user_code error)).2

/-! ## Outcome Coordinator (`lambda_handler`, source lines 48-85) -/

/-- One SQS record: `body` is the `json.loads` result of its body string
(`none` when that string is not valid JSON, including the empty default
of `record.get`). -/
structure SqsRecord where
  body : Option JVal
deriving DecidableEq

/-- The Lambda event. -/
structure Event where
  Records : List SqsRecord
deriving DecidableEq

/-- Structured handler response. -/
structure LambdaResult where
  statusCode : Nat
  body : String
deriving DecidableEq

/-- The generic request-failure response constant (`json.dumps` string
encoding of the body abstracted). -/
def ERROR_CODE_REQUEST : LambdaResult :=
  ⟨500, "error: APIRequestに失敗しました"⟩

def SUCCESS_FLAG : Int := 1

/-- Body of the success response
(the f-string of source line 84, evaluated). -/
def success_body (success_count num_records : Nat) : String :=
  "successed success_count / num_records = " ++ toString success_count
    ++ " / " ++ toString num_records

/-- Source lines 67-76, the part of the handler body reached once
`raise_for_status` did not raise: record history unconditionally, then
settle or mark failed according to the body status.  A non-dict response
body makes `data.get` raise (abstracted as `attributeError`); a dict
without `status` raises `KeyError` after the history insert. -/
def recordHistoryAndSettle (dbOk : Nat → Bool) (t : Trace) (pm : ParsedMsg)
    (response_json : JVal) : Except PyExc Unit × Trace :=
  match response_json with
  | .jobj data =>
    let t1 := insert_debit_history dbOk t data pm.merchant_code pm.user_code
    match pySubscript response_json "status" with
    | .error e => (.error e, t1)
    | .ok sv =>
      if pyEqInt sv SUCCESS_FLAG then
        let t2 := update_billing_to_settled dbOk t1 pm.merchant_code pm.user_code
        (.ok (), t2.push (.sleep 1))
      else
        let t2 := update_billing_error dbOk t1 pm.merchant_code pm.user_code (.jstr "error")
        (.error (.valueError "status is disabled"), t2)
  | _ => (.error .attributeError, t)

/-- The `try` block of `lambda_handler` (source lines 56-76): parse,
build the request, send it (the one HTTP effect), then branch on the
HTTP outcome exactly as the source does.  `.ok ()` means the block ran
to completion (`success_count += 1`); `.error e` is the exception the
handler's `except` clause will catch. -/
def processRecord (resp : HttpResponse) (dbOk : Nat → Bool) (record : SqsRecord) :
    Except PyExc Unit × Trace :=
  match parse_message record.body with
  | .error e => (.error e, Trace.empty)
  | .ok pm =>
    match get_request_body pm.direct_debit_id pm.amount with
    | .error e => (.error e, Trace.empty)
    | .ok body =>
      let t0 := Trace.empty.push (.httpPost body)
      match resp.json with
      | .error e => (.error e, t0)
      | .ok response_json =>
        if resp.respOk then
          recordHistoryAndSettle dbOk t0 pm response_json
        else
          match pySubscript response_json "err" with
          | .error e => (.error e, t0)
          | .ok errv =>
            match pySubscript errv "ec" with
            | .error e => (.error e, t0)
            | .ok ec =>
              let t1 := update_billing_error dbOk t0 pm.merchant_code pm.user_code ec
              match raise_for_status resp with
              | .error e => (.error e, t1)
              | .ok _ => recordHistoryAndSettle dbOk t1 pm response_json

/-- `lambda_handler` (source lines 48-85): assert exactly one record
(the assertion is outside the `try`, so its failure escapes), run the
`try` block on it, map any caught exception to `ERROR_CODE_REQUEST` and
completion to the 200 success response. -/
def lambda_handler (resp : HttpResponse) (dbOk : Nat → Bool) (event : Event) :
    Except PyExc LambdaResult × Trace :=
  match event.Records with
  | [record] =>
    match processRecord resp dbOk record with
    | (.ok _, t) => (.ok ⟨200, success_body 1 1⟩, t)
    | (.error _, t) => (.ok ERROR_CODE_REQUEST, t)
  | _ => (.error .assertionError, Trace.empty)

/-! ## Ledger Store (relational semantics of the two UPDATE statements) -/

def BILLING_FLAG_PENDING : String := "1"
def BILLING_FLAG_FINISHED : String := "2"
def SETTLEMENT_SUCCESS : String := "1"
def SETTLEMENT_FAILURE : String := "2"

/-- One row of `TBL_USER_PAYMENT` (the columns the two UPDATEs touch). -/
structure BillingRow where
  Merchant_Code : String
  User_Code : String
  Billing_FLG : String
  Settlement_FLG : String
  Error_Comment : String
deriving DecidableEq

/-- The WHERE clause shared by both UPDATE statements: match on merchant
code, user code and `Billing_FLG = PENDING`.  Values are the rendered
SQL text; interpolation is assumed injection-free here. -/
def billingWhere (merchant_code user_code : String) (r : BillingRow) : Bool :=
  r.Merchant_Code = merchant_code && r.User_Code = user_code
    && r.Billing_FLG = BILLING_FLAG_PENDING

/-- Relational semantics of the UPDATE issued by
`update_billing_to_settled`: set `Billing_FLG = FINISHED`,
`Settlement_FLG = SUCCESS` on every row matching the WHERE clause;
also returns the affected-row count. -/
def update_billing_to_settled_sql (merchant_code user_code : String)
    (tbl : List BillingRow) : List BillingRow × Nat :=
  (tbl.map fun r =>
     if billingWhere merchant_code user_code r then
       { r with Billing_FLG := BILLING_FLAG_FINISHED
                Settlement_FLG := SETTLEMENT_SUCCESS }
     else r,
   (tbl.filter (billingWhere merchant_code user_code)).length)

/-- Relational semantics of the UPDATE issued by `update_billing_error`:
set `Billing_FLG = FINISHED`, `Settlement_FLG = FAILURE`,
`Error_Comment = error` on every row matching the WHERE clause;
also returns the affected-row count. -/
def update_billing_error_sql (merchant_code user_code error : String)
    (tbl : List BillingRow) : List BillingRow × Nat :=
  (tbl.map fun r =>
     if billingWhere merchant_code user_code r then
       { r with Billing_FLG := BILLING_FLAG_FINISHED
                Settlement_FLG := SETTLEMENT_FAILURE
                Error_Comment := error }
     else r,
   (tbl.filter (billingWhere merchant_code user_code)).length)

/-! ## Helper constructions and basic lemmas -/

/-- Build an object from a field list (first binding wins, keys unique in
all uses). -/
def JObj.ofList : List (String × JVal) → JObj
  | [] => .nil
  | (k, v) :: rest => .cons k v (JObj.ofList rest)

/-! ## Concrete fixtures (used by examples and witnesses) -/

/-- The end-to-end scenario message of the spec. -/
def msgE2E : JObj := JObj.ofList
  [("billing_id", .jstr "b1"), ("merchant_code", .jstr "m1"),
   ("user_code", .jstr "u1"), ("direct_debit_id", .jstr "42"),
   ("amount", .jstr "500.00")]

def recE2E : SqsRecord := ⟨some (.jobj msgE2E)⟩

/-- Parse result of the end-to-end message. -/
def pmE2E : ParsedMsg :=
  ⟨msgE2E, .jstr "b1", .jstr "m1", .jstr "u1", .jstr "42", "500"⟩

def respSuccess : HttpResponse :=
  ⟨200, some (.jobj (JObj.ofList
    [("status", .jnum ⟨1, 0⟩), ("request_id", .jstr "r1")]))⟩

def respRejected : HttpResponse :=
  ⟨500, some (.jobj (JObj.ofList
    [("err", .jobj (JObj.ofList [("ec", .jstr "E001")]))]))⟩

def respStatus2 : HttpResponse :=
  ⟨200, some (.jobj (JObj.ofList [("status", .jnum ⟨2, 0⟩)]))⟩

def dbAllOk : Nat → Bool := fun _ => true

/-- Message with a fractional amount, for the truncation witness. -/
def msgFrac : JObj := JObj.ofList
  [("billing_id", .jstr "b1"), ("merchant_code", .jstr "m1"),
   ("user_code", .jstr "u1"), ("direct_debit_id", .jstr "42"),
   ("amount", .jstr "1000.99")]

/-- Message lacking the merchant code, for the C6 witness. -/
def msgNoMerchant : JObj := JObj.ofList
  [("billing_id", .jstr "b1"), ("user_code", .jstr "u1"),
   ("direct_debit_id", .jstr "42"), ("amount", .jstr "500")]

/-- Finished billing row, for the idempotence witness. -/
def rowFinished : BillingRow :=
  ⟨"m1", "u1", BILLING_FLAG_FINISHED, SETTLEMENT_SUCCESS, ""⟩

/-- Rejected response with an empty JSON object body, for the C10
witness. -/
def respNoErr : HttpResponse := ⟨500, some (.jobj .nil)⟩

example : parseDecimal? "1000.99" = some ⟨100099, 2⟩ := by decide
example : parseDecimal? "abc" = none := by decide
example : Dec10.trunc ⟨100099, 2⟩ = 1000 := by decide
example : Dec10.trunc ⟨-15, 1⟩ = -1 := by decide
example : parseIntStr? "-42" = some (-42) := by decide
example : pyFloat (.jstr "500.00") = .ok ⟨50000, 2⟩ := rfl

example : parse_message (some (.jobj msgE2E)) = .ok pmE2E := rfl

example : get_request_body (.jstr "42") "500" = .ok ⟨42, 500, 0, 0, 1, 1⟩ := rfl

example :
    lambda_handler respSuccess dbAllOk ⟨[recE2E]⟩ =
      (.ok ⟨200, success_body 1 1⟩,
       ⟨[.httpPost ⟨42, 500, 0, 0, 1, 1⟩,
         .sqlInsertHistory
           ⟨.jstr "r1", .jstr "m1", .jstr "u1", .jnull, .jnull, .jnull,
            .jnull, .jnull, .jnull, .jnull, .jnum ⟨1, 0⟩, .jnull⟩,
         .sqlMarkSettled (.jstr "m1") (.jstr "u1"),
         .sleep 1], 2⟩) := rfl

example :
    lambda_handler respRejected dbAllOk ⟨[recE2E]⟩ =
      (.ok ERROR_CODE_REQUEST,
       ⟨[.httpPost ⟨42, 500, 0, 0, 1, 1⟩,
         .sqlMarkFailed (.jstr "m1") (.jstr "u1") (.jstr "E001")], 1⟩) := rfl

example :
    lambda_handler respStatus2 dbAllOk ⟨[recE2E]⟩ =
      (.ok ERROR_CODE_REQUEST,
       ⟨[.httpPost ⟨42, 500, 0, 0, 1, 1⟩,
         .sqlInsertHistory
           ⟨.jnull, .jstr "m1", .jstr "u1", .jnull, .jnull, .jnull,
            .jnull, .jnull, .jnull, .jnull, .jnum ⟨2, 0⟩, .jnull⟩,
         .sqlMarkFailed (.jstr "m1") (.jstr "u1") (.jstr "error")], 2⟩) := rfl

/-- Int floor of a natural division in the rationals is natural
division. -/
theorem int_floor_natCast_div (a P : Nat) :
    ⌊(a : ℚ) / (P : ℚ)⌋ = ((a / P : Nat) : Int) := by
  have h0 : (0 : ℚ) ≤ (a : ℚ) / (P : ℚ) := by positivity
  rw [← Int.natCast_floor_eq_floor h0, Nat.floor_div_eq_div]

/-- The code-level truncation of a decimal agrees with the
order-theoretic truncation toward zero of its numeric value. -/
theorem Dec10.trunc_eq_truncQ (d : Dec10) : d.trunc = truncQ d.toRat := by
  rcases d with ⟨m, k⟩
  have hpow : ((10 : ℚ) ^ k) = ((10 ^ k : Nat) : ℚ) := by push_cast; ring
  unfold Dec10.trunc Dec10.toRat truncQ
  simp only
  rcases lt_or_le m 0 with hm | hm
  · have habs : ((m.natAbs : ℚ)) = -(m : ℚ) := by
      rw [Int.cast_natAbs, abs_of_neg hm]; push_cast; ring
    have hneg : (m : ℚ) / (10 : ℚ) ^ k < 0 :=
      div_neg_of_neg_of_pos (by exact_mod_cast hm) (by positivity)
    rw [if_pos hm, if_neg (not_le.mpr hneg)]
    have hval : (m : ℚ) / (10 : ℚ) ^ k
        = -(((m.natAbs : ℚ)) / ((10 ^ k : Nat) : ℚ)) := by
      rw [habs, hpow]; ring
    rw [hval, Int.ceil_neg, int_floor_natCast_div]
  · have hnn : (0 : ℚ) ≤ (m : ℚ) / (10 : ℚ) ^ k := by
      apply div_nonneg (by exact_mod_cast hm) (by positivity)
    have habs : ((m.natAbs : ℚ)) = (m : ℚ) := by
      rw [Int.cast_natAbs, abs_of_nonneg hm]
    rw [if_neg (not_lt.mpr hm), if_pos hnn, hpow, ← habs, int_floor_natCast_div]

/-! ## Oracle independence: storage write outcomes never steer control flow -/

theorem recordHistoryAndSettle_oracle (f g : Nat → Bool) (t : Trace) (pm : ParsedMsg)
    (rj : JVal) : recordHistoryAndSettle f t pm rj = recordHistoryAndSettle g t pm rj := by
  cases rj <;>
    simp [recordHistoryAndSettle, insert_debit_history, update_billing_to_settled,
      update_billing_error, execution_query]

theorem processRecord_oracle (resp : HttpResponse) (f g : Nat → Bool) (record : SqsRecord) :
    processRecord resp f record = processRecord resp g record := by
  unfold processRecord
  cases parse_message record.body with
  | error e => rfl
  | ok pm =>
    cases get_request_body pm.direct_debit_id pm.amount with
    | error e => rfl
    | ok body =>
      cases resp.json with
      | error e => rfl
      | ok rj =>
        cases hok : resp.respOk with
        | true => simp [recordHistoryAndSettle_oracle f g]
        | false =>
          cases pySubscript rj "err" with
          | error e => rfl
          | ok errv =>
            cases pySubscript errv "ec" with
            | error e => rfl
            | ok ec =>
              simp [update_billing_error, execution_query,
                recordHistoryAndSettle_oracle f g]

theorem lambda_handler_oracle (resp : HttpResponse) (f g : Nat → Bool) (event : Event) :
    lambda_handler resp f event = lambda_handler resp g event := by
  rcases event with ⟨records⟩
  rcases records with _ | ⟨r, _ | ⟨r2, rest⟩⟩
  · rfl
  · simp only [lambda_handler, processRecord_oracle resp f g r]
  · rfl

/-- C1: storage write failures are swallowed at the store boundary
(`execution_query` returns a boolean flag and never raises), so the
handler's result — the already-determined debit outcome, the returned
classification and the full effect trace, including the `markSettled`
call after a failed history insert and the success response — is the
same under any pattern of SQL write failures as when every write
succeeds. -/
theorem storage_write_failures_isolated (resp : HttpResponse) (dbOk : Nat → Bool)
    (event : Event) :
    lambda_handler resp dbOk event = lambda_handler resp (fun _ => true) event :=
  lambda_handler_oracle resp dbOk (fun _ => true) event

/-- C2: a non-ok HTTP response whose JSON body carries an error code
under err.ec makes the coordinator call `markFailed` exactly once with
that code for the parsed merchant and user codes, write no debit-history
row, and return the failure classification. -/
theorem provider_rejected_marks_failed_no_history (resp : HttpResponse)
    (dbOk : Nat → Bool) (record : SqsRecord) (pm : ParsedMsg) (body : DebitRequest)
    (ro eo : JObj) (ec : JVal)
    (hparse : parse_message record.body = .ok pm)
    (hbody : get_request_body pm.direct_debit_id pm.amount = .ok body)
    (hnotok : resp.respOk = false)
    (hjson : resp.body = some (.jobj ro))
    (herr : ro.lookup "err" = some (.jobj eo))
    (hec : eo.lookup "ec" = some ec) :
    lambda_handler resp dbOk ⟨[record]⟩ =
      (.ok ERROR_CODE_REQUEST,
       ⟨[.httpPost body, .sqlMarkFailed pm.merchant_code pm.user_code ec], 1⟩) := by
  simp [lambda_handler, processRecord, hparse, hbody, HttpResponse.json, hjson, hnotok,
    pySubscript, herr, hec, update_billing_error, execution_query, raise_for_status,
    Trace.empty, Trace.push]

theorem provider_rejected_marks_failed_no_history_witness :
    lambda_handler respRejected dbAllOk ⟨[recE2E]⟩ =
      (.ok ERROR_CODE_REQUEST,
       ⟨[.httpPost ⟨42, 500, 0, 0, 1, 1⟩,
         .sqlMarkFailed (.jstr "m1") (.jstr "u1") (.jstr "E001")], 1⟩) :=
  provider_rejected_marks_failed_no_history respRejected dbAllOk recE2E pmE2E
    ⟨42, 500, 0, 0, 1, 1⟩
    (JObj.ofList [("err", .jobj (JObj.ofList [("ec", .jstr "E001")]))])
    (JObj.ofList [("ec", .jstr "E001")]) (.jstr "E001") rfl rfl rfl rfl rfl rfl

/-- C3: an ok HTTP response with body status equal to 1 makes the
coordinator — having built the DebitRequest deterministically as
customer_id = int(direct_debit_id), amount = int(amount), tax 0,
ship_fee 0, transfer_type 1, status 1 — record exactly one debit-history
row, call `markSettled` exactly once, and return the success
classification. -/
theorem debit_success_settles_once (resp : HttpResponse) (dbOk : Nat → Bool)
    (record : SqsRecord) (pm : ParsedMsg) (body : DebitRequest) (data : JObj) (sv : JVal)
    (hparse : parse_message record.body = .ok pm)
    (hbody : get_request_body pm.direct_debit_id pm.amount = .ok body)
    (hok : resp.respOk = true)
    (hjson : resp.body = some (.jobj data))
    (hst : data.lookup "status" = some sv)
    (hsv : pyEqInt sv SUCCESS_FLAG = true) :
    lambda_handler resp dbOk ⟨[record]⟩ =
      (.ok ⟨200, success_body 1 1⟩,
       ⟨[.httpPost body,
         .sqlInsertHistory (mkHistoryRow data pm.merchant_code pm.user_code),
         .sqlMarkSettled pm.merchant_code pm.user_code,
         .sleep 1], 2⟩) ∧
    pyInt pm.direct_debit_id = .ok body.customer_id ∧
    pyInt (.jstr pm.amount) = .ok body.amount ∧
    body.tax = 0 ∧ body.ship_fee = 0 ∧ body.transfer_type = 1 ∧ body.status = 1 := by
  have hfields : pyInt pm.direct_debit_id = .ok body.customer_id ∧
      pyInt (.jstr pm.amount) = .ok body.amount ∧
      body.tax = 0 ∧ body.ship_fee = 0 ∧ body.transfer_type = 1 ∧ body.status = 1 := by
    unfold get_request_body at hbody
    rcases hdd : pyInt pm.direct_debit_id with e | cid <;> rw [hdd] at hbody
    · simp at hbody
    · rcases ham : pyInt (.jstr pm.amount) with e2 | amt <;> rw [ham] at hbody
      · simp at hbody
      · injection hbody with hb
        subst hb
        exact ⟨rfl, rfl, rfl, rfl, rfl, rfl⟩
  refine ⟨?_, hfields⟩
  simp [lambda_handler, processRecord, hparse, hbody, HttpResponse.json, hjson, hok,
    recordHistoryAndSettle, pySubscript, hst, hsv, insert_debit_history,
    update_billing_to_settled, execution_query, Trace.empty, Trace.push]

theorem debit_success_settles_once_witness :
    lambda_handler respSuccess dbAllOk ⟨[recE2E]⟩ =
      (.ok ⟨200, success_body 1 1⟩,
       ⟨[.httpPost ⟨42, 500, 0, 0, 1, 1⟩,
         .sqlInsertHistory
           (mkHistoryRow
             (JObj.ofList [("status", .jnum ⟨1, 0⟩), ("request_id", .jstr "r1")])
             (.jstr "m1") (.jstr "u1")),
         .sqlMarkSettled (.jstr "m1") (.jstr "u1"),
         .sleep 1], 2⟩) ∧
    pyInt (.jstr "42") = .ok (42 : Int) ∧
    pyInt (.jstr "500") = .ok (500 : Int) ∧
    (⟨42, 500, 0, 0, 1, 1⟩ : DebitRequest).tax = 0 ∧
    (⟨42, 500, 0, 0, 1, 1⟩ : DebitRequest).ship_fee = 0 ∧
    (⟨42, 500, 0, 0, 1, 1⟩ : DebitRequest).transfer_type = 1 ∧
    (⟨42, 500, 0, 0, 1, 1⟩ : DebitRequest).status = 1 :=
  debit_success_settles_once respSuccess dbAllOk recE2E pmE2E ⟨42, 500, 0, 0, 1, 1⟩
    (JObj.ofList [("status", .jnum ⟨1, 0⟩), ("request_id", .jstr "r1")])
    (.jnum ⟨1, 0⟩) rfl rfl rfl rfl rfl rfl

/-- C4: an ok HTTP response whose body status is present but not 1 makes
the coordinator record the debit-history row, then call `markFailed`
exactly once with the literal marker string error, and return the
failure classification. -/
theorem logical_failure_history_then_error_marker (resp : HttpResponse)
    (dbOk : Nat → Bool) (record : SqsRecord) (pm : ParsedMsg) (body : DebitRequest)
    (data : JObj) (sv : JVal)
    (hparse : parse_message record.body = .ok pm)
    (hbody : get_request_body pm.direct_debit_id pm.amount = .ok body)
    (hok : resp.respOk = true)
    (hjson : resp.body = some (.jobj data))
    (hst : data.lookup "status" = some sv)
    (hsv : pyEqInt sv SUCCESS_FLAG = false) :
    lambda_handler resp dbOk ⟨[record]⟩ =
      (.ok ERROR_CODE_REQUEST,
       ⟨[.httpPost body,
         .sqlInsertHistory (mkHistoryRow data pm.merchant_code pm.user_code),
         .sqlMarkFailed pm.merchant_code pm.user_code (.jstr "error")], 2⟩) := by
  simp [lambda_handler, processRecord, hparse, hbody, HttpResponse.json, hjson, hok,
    recordHistoryAndSettle, pySubscript, hst, hsv, insert_debit_history,
    update_billing_error, execution_query, Trace.empty, Trace.push]

theorem logical_failure_history_then_error_marker_witness :
    lambda_handler respStatus2 dbAllOk ⟨[recE2E]⟩ =
      (.ok ERROR_CODE_REQUEST,
       ⟨[.httpPost ⟨42, 500, 0, 0, 1, 1⟩,
         .sqlInsertHistory
           (mkHistoryRow (JObj.ofList [("status", .jnum ⟨2, 0⟩)])
             (.jstr "m1") (.jstr "u1")),
         .sqlMarkFailed (.jstr "m1") (.jstr "u1") (.jstr "error")], 2⟩) :=
  logical_failure_history_then_error_marker respStatus2 dbAllOk recE2E pmE2E
    ⟨42, 500, 0, 0, 1, 1⟩ (JObj.ofList [("status", .jnum ⟨2, 0⟩)])
    (.jnum ⟨2, 0⟩) rfl rfl rfl rfl rfl rfl

/-- C5: once the five required fields are present and non-null, a
numerically convertible amount parses to the integer string of its value
truncated toward zero, and an amount whose float conversion fails with a
ValueError makes parsing fail with the Invalid amount error, with no
external effect performed by the handler. -/
theorem amount_normalization_truncates (m : JObj) (av : JVal)
    (hreq : checkRequired m required_fields = .ok ())
    (ham : m.lookup "amount" = some av) :
    (∀ d : Dec10, pyFloat av = .ok d →
       parse_message (some (.jobj m)) =
         .ok ⟨m, m.pyGet "billing_id", m.pyGet "merchant_code", m.pyGet "user_code",
              m.pyGet "direct_debit_id", toString (truncQ d.toRat)⟩) ∧
    (∀ msg : String, pyFloat av = .error (.valueError msg) →
       parse_message (some (.jobj m)) = .error .invalidAmount ∧
       ∀ (resp : HttpResponse) (dbOk : Nat → Bool),
         lambda_handler resp dbOk ⟨[⟨some (.jobj m)⟩]⟩ =
           (.ok ERROR_CODE_REQUEST, Trace.empty)) := by
  have hget : m.pyGet "amount" = av := by rw [JObj.pyGet, ham]; rfl
  constructor
  · intro d hd
    simp [parse_message, hreq, hget, hd, ← Dec10.trunc_eq_truncQ]
  · intro msg hmsg
    have h1 : parse_message (some (.jobj m)) = .error .invalidAmount := by
      simp [parse_message, hreq, hget, hmsg]
    exact ⟨h1, fun resp dbOk => by simp [lambda_handler, processRecord, h1]⟩

theorem amount_normalization_truncates_witness :
    parse_message (some (.jobj msgFrac)) =
      .ok ⟨msgFrac, .jstr "b1", .jstr "m1", .jstr "u1", .jstr "42", "1000"⟩ := by
  have h := (amount_normalization_truncates msgFrac (.jstr "1000.99") rfl rfl).1
    ⟨100099, 2⟩ rfl
  rw [h, ← Dec10.trunc_eq_truncQ]
  rfl

/-- C7: any Message Parser failure makes the handler return the generic
request-failure classification with an empty effect trace: no HTTP debit
call, no history write, no billing-record update. -/
theorem parser_failure_no_side_effects (resp : HttpResponse) (dbOk : Nat → Bool)
    (record : SqsRecord) (e : PyExc)
    (h : parse_message record.body = .error e) :
    lambda_handler resp dbOk ⟨[record]⟩ = (.ok ERROR_CODE_REQUEST, Trace.empty) := by
  simp [lambda_handler, processRecord, h]

theorem parser_failure_no_side_effects_witness :
    lambda_handler respSuccess dbAllOk ⟨[⟨none⟩]⟩ =
      (.ok ERROR_CODE_REQUEST, Trace.empty) :=
  parser_failure_no_side_effects respSuccess dbAllOk ⟨none⟩ .invalidJson rfl

/-- A prefix of fields that are all present and non-null passes through
the validation loop. -/
theorem checkRequired_append (m : JObj) (pre rest : List String)
    (hpre : ∀ g ∈ pre, ∃ v, m.lookup g = some v ∧ v ≠ .jnull) :
    checkRequired m (pre ++ rest) = checkRequired m rest := by
  induction pre with
  | nil => rfl
  | cons g pre ih =>
    obtain ⟨v, hv, hvn⟩ := hpre g (by simp)
    have hrest : ∀ g2 ∈ pre, ∃ v, m.lookup g2 = some v ∧ v ≠ .jnull :=
      fun g2 hg2 => hpre g2 (by simp [hg2])
    rw [List.cons_append]
    rw [show checkRequired m (g :: (pre ++ rest)) =
          match m.lookup g with
          | none => .error (.missingField g)
          | some .jnull => .error (.nullField g)
          | some _ => checkRequired m (pre ++ rest) from rfl, hv]
    cases v with
    | jnull => exact absurd rfl hvn
    | jbool b => exact ih hrest
    | jnum d => exact ih hrest
    | jstr s => exact ih hrest
    | jobj o => exact ih hrest

/-- C6: when every field before f in the required list is present and
non-null, an absent f fails parsing with the missing-field error naming
f, and a null f fails with the null-field error naming f. -/
theorem parser_names_missing_and_null_fields (m : JObj) (pre post : List String)
    (f : String)
    (hsplit : required_fields = pre ++ f :: post)
    (hpre : ∀ g ∈ pre, ∃ v, m.lookup g = some v ∧ v ≠ .jnull) :
    (m.lookup f = none →
       parse_message (some (.jobj m)) = .error (.missingField f)) ∧
    (m.lookup f = some .jnull →
       parse_message (some (.jobj m)) = .error (.nullField f)) := by
  have hck : checkRequired m required_fields = checkRequired m (f :: post) := by
    rw [hsplit, checkRequired_append m pre _ hpre]
  constructor
  · intro hf
    have h1 : checkRequired m required_fields = .error (.missingField f) := by
      rw [hck]; simp [checkRequired, hf]
    simp [parse_message, h1]
  · intro hf
    have h1 : checkRequired m required_fields = .error (.nullField f) := by
      rw [hck]; simp [checkRequired, hf]
    simp [parse_message, h1]

theorem parser_names_missing_and_null_fields_witness :
    parse_message (some (.jobj msgNoMerchant)) =
      .error (.missingField "merchant_code") :=
  (parser_names_missing_and_null_fields msgNoMerchant ["billing_id"]
    ["user_code", "direct_debit_id", "amount"] "merchant_code" rfl
    (by
      intro g hg
      simp only [List.mem_singleton] at hg
      subst hg
      exact ⟨.jstr "b1", rfl, by decide⟩)).1 rfl

/-- C8: the handler returns a structured response (numeric status with a
descriptive body string) for every single-record event, letting no
exception escape, and the at-most-one-message precondition is an
assertion that fails hard on any other record count. -/
theorem handler_returns_structured_response (resp : HttpResponse) (dbOk : Nat → Bool)
    (event : Event) :
    (event.Records.length = 1 →
       (lambda_handler resp dbOk event).1 = .ok ⟨200, success_body 1 1⟩ ∨
       (lambda_handler resp dbOk event).1 = .ok ERROR_CODE_REQUEST) ∧
    (event.Records.length ≠ 1 →
       (lambda_handler resp dbOk event).1 = .error .assertionError) := by
  rcases event with ⟨records⟩
  rcases records with _ | ⟨r, _ | ⟨r2, rest⟩⟩
  · exact ⟨fun h => absurd h (by simp), fun _ => rfl⟩
  · refine ⟨fun _ => ?_, fun h => absurd rfl h⟩
    rcases hp : processRecord resp dbOk r with ⟨res, t⟩
    cases res with
    | ok u => exact Or.inl (by simp [lambda_handler, hp])
    | error e => exact Or.inr (by simp [lambda_handler, hp])
  · exact ⟨fun h => absurd h (by simp), fun _ => rfl⟩

theorem handler_returns_structured_response_witness :
    (lambda_handler respSuccess dbAllOk ⟨[recE2E]⟩).1 = .ok ⟨200, success_body 1 1⟩ ∨
    (lambda_handler respSuccess dbAllOk ⟨[recE2E]⟩).1 = .ok ERROR_CODE_REQUEST :=
  (handler_returns_structured_response respSuccess dbAllOk ⟨[recE2E]⟩).1 rfl

/-- A conditional row update and its affected-row count are no-ops on a
table where no row satisfies the condition. -/
theorem billing_update_noop (upd : BillingRow → BillingRow) (p : BillingRow → Bool)
    (tbl : List BillingRow) (hw : ∀ r ∈ tbl, p r = false) :
    (tbl.map fun r => if p r then upd r else r) = tbl ∧ (tbl.filter p).length = 0 := by
  induction tbl with
  | nil => exact ⟨rfl, rfl⟩
  | cons r tl ih =>
    have hr := hw r (by simp)
    have ihh := ih fun x hx => hw x (by simp [hx])
    constructor
    · simp [hr, ihh.1]
    · simp [List.filter_cons, hr, ihh.2]

/-- C9: on a store whose rows keyed by the given merchant and user codes
all already carry Billing_FLG = FINISHED, both UPDATE statements leave
every row unchanged and affect 0 rows, because their shared WHERE clause
requires Billing_FLG = PENDING. -/
theorem settled_and_failed_idempotent_on_finished (tbl : List BillingRow)
    (mc uc err : String)
    (h : ∀ r ∈ tbl, r.Merchant_Code = mc → r.User_Code = uc →
           r.Billing_FLG = BILLING_FLAG_FINISHED) :
    update_billing_to_settled_sql mc uc tbl = (tbl, 0) ∧
    update_billing_error_sql mc uc err tbl = (tbl, 0) := by
  have hw : ∀ r ∈ tbl, billingWhere mc uc r = false := by
    intro r hr
    rw [billingWhere]
    by_cases h1 : r.Merchant_Code = mc
    · by_cases h2 : r.User_Code = uc
      · have h3 := h r hr h1 h2
        simp [h1, h2, h3, BILLING_FLAG_FINISHED, BILLING_FLAG_PENDING]
      · simp [h2]
    · simp [h1]
  obtain ⟨hm1, hf1⟩ := billing_update_noop
    (fun r => { r with Billing_FLG := BILLING_FLAG_FINISHED
                       Settlement_FLG := SETTLEMENT_SUCCESS })
    (billingWhere mc uc) tbl hw
  obtain ⟨hm2, hf2⟩ := billing_update_noop
    (fun r => { r with Billing_FLG := BILLING_FLAG_FINISHED
                       Settlement_FLG := SETTLEMENT_FAILURE
                       Error_Comment := err })
    (billingWhere mc uc) tbl hw
  constructor
  · rw [update_billing_to_settled_sql, hm1, hf1]
  · rw [update_billing_error_sql, hm2, hf2]

theorem settled_and_failed_idempotent_on_finished_witness :
    update_billing_to_settled_sql "m1" "u1" [rowFinished] = ([rowFinished], 0) ∧
    update_billing_error_sql "m1" "u1" "E001" [rowFinished] = ([rowFinished], 0) :=
  settled_and_failed_idempotent_on_finished [rowFinished] "m1" "u1" "E001"
    (by
      intro r hr h1 h2
      simp only [List.mem_singleton] at hr
      subst hr
      rfl)

/-- C10: a non-ok HTTP response whose JSON body lacks err (or whose err
object lacks ec) makes the error-code subscript raise before markFailed,
so the trace holds only the HTTP call — no billing update, no history
write, the billing record stays as it was — while the handler still
returns the generic failure classification. -/
theorem missing_error_code_skips_all_writes (resp : HttpResponse) (dbOk : Nat → Bool)
    (record : SqsRecord) (pm : ParsedMsg) (body : DebitRequest) (rj : JVal)
    (hparse : parse_message record.body = .ok pm)
    (hbody : get_request_body pm.direct_debit_id pm.amount = .ok body)
    (hnotok : resp.respOk = false)
    (hjson : resp.body = some rj)
    (herr : (∃ e, pySubscript rj "err" = .error e) ∨
            (∃ ev e, pySubscript rj "err" = .ok ev ∧ pySubscript ev "ec" = .error e)) :
    lambda_handler resp dbOk ⟨[record]⟩ =
      (.ok ERROR_CODE_REQUEST, ⟨[.httpPost body], 0⟩) := by
  rcases herr with ⟨e, he⟩ | ⟨ev, e, hev, he⟩
  · simp [lambda_handler, processRecord, hparse, hbody, HttpResponse.json, hjson,
      hnotok, he, Trace.empty, Trace.push]
  · simp [lambda_handler, processRecord, hparse, hbody, HttpResponse.json, hjson,
      hnotok, hev, he, Trace.empty, Trace.push]

theorem missing_error_code_skips_all_writes_witness :
    lambda_handler respNoErr dbAllOk ⟨[recE2E]⟩ =
      (.ok ERROR_CODE_REQUEST, ⟨[.httpPost ⟨42, 500, 0, 0, 1, 1⟩], 0⟩) :=
  missing_error_code_skips_all_writes respNoErr dbAllOk recE2E pmE2E
    ⟨42, 500, 0, 0, 1, 1⟩ (.jobj .nil) rfl rfl rfl rfl
    (Or.inl ⟨.keyError "err", rfl⟩)
